import Mathlib

/-!
Verification of the A/B-test statistical core (statistical_tests.py and the
derived-metric parser of data_analysis.py).

Modelling conventions:
* numeric cell values are exact rationals; a missing cell (NaN) is `none`;
* pandas Series operations (`mean`, `std` with ddof 1, `median`, `dropna`)
  are embedded as list functions over ℚ;
* the scipy t-test p-value is the two-sided tail of the Student t
  distribution at the Welch statistic, written with the textbook density;
* the scipy Mann-Whitney p-value is the exact permutation two-sided
  p-value, the method scipy selects for the small untied samples this
  development evaluates it on;
* a float result that is non-finite (NaN from a zero-variance 0/0) is
  modelled as `none`.
-/

namespace ABTest

/-- One data row: the cohort label from the Group column and, for each
metric column name, the cell value (`none` models a missing value). -/
structure Row where
  group : String
  values : String → Option ℚ

/-- Embeds the pandas pipeline df[df[Group] == g][metric].dropna(). -/
def groupVals (rows : List Row) (g : String) (metric : String) : List ℚ :=
  (rows.filter (fun r => r.group = g)).filterMap (fun r => r.values metric)

/-- Series.mean: sum divided by length. -/
def mean (l : List ℚ) : ℚ := l.sum / l.length

/-- Series.var with ddof 1 (pandas default): Σ (x - mean)² / (n - 1).
Used only on lists of length at least 2. -/
def sampleVar (l : List ℚ) : ℚ :=
  ((l.map (fun x => (x - mean l) ^ 2)).sum) / ((l.length : ℚ) - 1)

/-- Series.std with ddof 1 (pandas default): square root of the sample
variance. -/
noncomputable def std (l : List ℚ) : ℝ := Real.sqrt (sampleVar l)

/-- Insert a value into a sorted list of rationals. -/
def insortQ (x : ℚ) : List ℚ → List ℚ
  | [] => [x]
  | y :: ys => if x ≤ y then x :: y :: ys else y :: insortQ x ys

/-- Insertion sort for rationals. -/
def sortQ (l : List ℚ) : List ℚ := l.foldr insortQ []

/-- Series.median: middle element of the sorted list for odd length, the
average of the two middle elements for even length.  Used only on
nonempty lists. -/
def median (l : List ℚ) : ℚ :=
  let s := sortQ l
  if l.length % 2 = 1 then s.getD (l.length / 2) 0
  else (s.getD (l.length / 2 - 1) 0 + s.getD (l.length / 2) 0) / 2

/-- Density of the Student t distribution with ν degrees of freedom. -/
noncomputable def studentPdf (ν x : ℝ) : ℝ :=
  Real.Gamma ((ν + 1) / 2) / (Real.sqrt (ν * Real.pi) * Real.Gamma (ν / 2)) *
    (1 + x ^ 2 / ν) ^ (-((ν + 1) / 2))

/-- Cumulative distribution function of the Student t distribution,
written through the symmetry point 0. -/
noncomputable def studentCDF (ν x : ℝ) : ℝ := 1 / 2 + ∫ u in (0:ℝ)..x, studentPdf ν u

/-- Two-sided p-value of a t statistic against the Student t distribution
with ν degrees of freedom, as scipy.stats.ttest_ind reports it. -/
noncomputable def tTwoSidedP (ν t : ℝ) : ℝ := 2 * (1 - studentCDF ν |t|)

/-- Welch–Satterthwaite degrees of freedom used by
scipy.stats.ttest_ind with equal_var False. -/
def welchDf (a b : List ℚ) : ℚ :=
  let va := sampleVar a / a.length
  let vb := sampleVar b / b.length
  (va + vb) ^ 2 / (va ^ 2 / ((a.length : ℚ) - 1) + vb ^ 2 / ((b.length : ℚ) - 1))

/-- The dict a test returns when the sample-size check fails: exactly the
keys metric, test and error. -/
structure ErrorResult where
  metric : String
  test : String
  error : String
  deriving DecidableEq

/-- The dict run_t_test returns on success, field for field in the order
of the source literal.  significant is the proposition p_value < alpha,
false when the p-value is NaN (`none`), matching NaN < alpha in floats. -/
structure TTestResult where
  metric : String
  test : String
  group_a_mean : ℚ
  group_b_mean : ℚ
  difference : ℚ
  percent_change : Option ℚ
  t_statistic : Option ℝ
  p_value : Option ℝ
  effect_size : ℝ
  significant : Prop
  sample_size_a : ℕ
  sample_size_b : ℕ

/-- run_t_test either returns the error dict or the full result dict. -/
inductive TTestOutcome where
  | err (e : ErrorResult)
  | ok (r : TTestResult)

/-- Squared standard error of the mean difference, the quantity under the
square root in the Welch statistic of scipy.stats.ttest_ind. -/
def welchSe2 (a b : List ℚ) : ℚ := sampleVar a / a.length + sampleVar b / b.length

/-- The Welch t statistic (mean_a - mean_b) / sqrt(var_a/n_a + var_b/n_b);
`none` models the non-finite float the division yields when both sample
variances are zero. -/
noncomputable def tStatistic (a b : List ℚ) : Option ℝ :=
  if welchSe2 a b = 0 then none
  else some (((mean a - mean b : ℚ) : ℝ) / Real.sqrt ((welchSe2 a b : ℝ)))

/-- The two-sided p-value scipy.stats.ttest_ind reports: the Student tail
at the Welch statistic with Welch degrees of freedom.  With zero standard
error the float statistic is NaN (p-value `none`) when the means agree
and ±inf (p-value 0) otherwise. -/
noncomputable def tPVal (a b : List ℚ) : Option ℝ :=
  if welchSe2 a b = 0 then (if mean a - mean b = 0 then none else some 0)
  else some (tTwoSidedP ((welchDf a b : ℚ) : ℝ)
    (((mean a - mean b : ℚ) : ℝ) / Real.sqrt ((welchSe2 a b : ℝ))))

/-- pooled_std of run_t_test: sqrt of the (n-1)-weighted combination of
the squared group standard deviations over (n_a + n_b - 2). -/
noncomputable def pooled_std (a b : List ℚ) : ℝ :=
  Real.sqrt ((((a.length : ℝ) - 1) * std a ^ 2 +
              ((b.length : ℝ) - 1) * std b ^ 2) /
             ((a.length : ℝ) + (b.length : ℝ) - 2))

/-- effect_size of run_t_test: abs(mean_a - mean_b) / pooled_std when
pooled_std > 0, else 0. -/
noncomputable def effect_size (a b : List ℚ) : ℝ :=
  if 0 < pooled_std a b then |((mean a : ℚ) : ℝ) - ((mean b : ℚ) : ℝ)| / pooled_std a b
  else 0

/-- The dict run_t_test builds on the success path, field for field in
the order of the source literal, as a function of the two dropna-filtered
group value lists. -/
noncomputable def tOkResult (a b : List ℚ) (metric : String) (alpha : ℚ) : TTestResult :=
  { metric := metric
    test := "t-test"
    group_a_mean := mean a
    group_b_mean := mean b
    difference := mean b - mean a
    percent_change :=
      if mean a ≠ 0 then some ((mean b - mean a) / mean a * 100) else none
    t_statistic := tStatistic a b
    p_value := tPVal a b
    effect_size := effect_size a b
    significant := ∃ p, tPVal a b = some p ∧ p < (alpha : ℝ)
    sample_size_a := a.length
    sample_size_b := b.length }

/-- run_t_test of statistical_tests.py. -/
noncomputable def run_t_test (rows : List Row) (metric : String) (alpha : ℚ) : TTestOutcome :=
  let group_a := groupVals rows "A" metric
  let group_b := groupVals rows "B" metric
  if group_a.length < 2 ∨ group_b.length < 2 then
    .err { metric := metric, test := "t-test", error := "Insufficient data for t-test" }
  else
    .ok (tOkResult group_a group_b metric alpha)

/-- Mann-Whitney U statistic of xs against ys: one point per pair won,
half a point per tie (midrank convention). -/
def uStat (xs ys : List ℚ) : ℚ :=
  (xs.map (fun x =>
    (ys.map (fun y => if y < x then (1:ℚ) else if y = x then 1/2 else 0)).sum)).sum

/-- All ways to assign n of the pooled values to the first group (first
component) and the rest to the second, both kept in pool order: the
permutation null distribution of group assignments. -/
def splits : ℕ → List ℚ → List (List ℚ × List ℚ)
  | 0, l => [([], l)]
  | _ + 1, [] => []
  | n + 1, x :: xs =>
      ((splits n xs).map (fun p => (x :: p.1, p.2))) ++
      ((splits (n + 1) xs).map (fun p => (p.1, x :: p.2)))

/-- Exact two-sided Mann-Whitney p-value: twice the permutation-null
probability that U reaches max(U1, U2), clipped at 1, as
scipy.stats.mannwhitneyu computes it for small untied samples. -/
def mwExactP (xs ys : List ℚ) : ℚ :=
  let assignments := splits xs.length (xs ++ ys)
  let uMax := max (uStat xs ys) ((xs.length : ℚ) * (ys.length : ℚ) - uStat xs ys)
  let tail := assignments.filter (fun p => uMax ≤ uStat p.1 p.2)
  min 1 (2 * (tail.length : ℚ) / (assignments.length : ℚ))

/-- The dict run_mann_whitney_test returns on success, field for field in
the order of the source literal. -/
structure MWResult where
  metric : String
  test : String
  group_a_median : ℚ
  group_b_median : ℚ
  difference : ℚ
  percent_change : Option ℚ
  u_statistic : ℚ
  p_value : ℚ
  significant : Bool
  sample_size_a : ℕ
  sample_size_b : ℕ
  deriving DecidableEq

/-- run_mann_whitney_test either returns the error dict or the full
result dict. -/
inductive MWOutcome where
  | err (e : ErrorResult)
  | ok (r : MWResult)
  deriving DecidableEq

/-- The dict run_mann_whitney_test builds on the success path, field for
field in the order of the source literal. -/
def mwOkResult (a b : List ℚ) (metric : String) (alpha : ℚ) : MWResult :=
  { metric := metric
    test := "mann-whitney"
    group_a_median := median a
    group_b_median := median b
    difference := median b - median a
    percent_change :=
      if median a ≠ 0 then some ((median b - median a) / median a * 100) else none
    u_statistic := uStat a b
    p_value := mwExactP a b
    significant := decide (mwExactP a b < alpha)
    sample_size_a := a.length
    sample_size_b := b.length }

/-- run_mann_whitney_test of statistical_tests.py. -/
def run_mann_whitney_test (rows : List Row) (metric : String) (alpha : ℚ) : MWOutcome :=
  let group_a := groupVals rows "A" metric
  let group_b := groupVals rows "B" metric
  if group_a.length < 1 ∨ group_b.length < 1 then
    .err { metric := metric, test := "mann-whitney",
           error := "Insufficient data for Mann-Whitney test" }
  else
    .ok (mwOkResult group_a group_b metric alpha)

/-- A processed table: the names of its numeric columns in table order,
and its rows.  The Group column is categorical, so it is not listed among
the numeric columns. -/
structure DataFrame where
  numericCols : List String
  rows : List Row

/-- The dict analyze_all_metrics builds: two parallel result lists. -/
structure ResultSet where
  t_test_results : List TTestOutcome
  mann_whitney_results : List MWOutcome

/-- analyze_all_metrics of statistical_tests.py: run both tests for every
numeric column except User_ID, in column order. -/
noncomputable def analyze_all_metrics (df : DataFrame) (alpha : ℚ) : ResultSet :=
  let metrics := df.numericCols.filter (fun c => c ≠ "User_ID")
  { t_test_results := metrics.map (fun m => run_t_test df.rows m alpha)
    mann_whitney_results := metrics.map (fun m => run_mann_whitney_test df.rows m alpha) }

/-- A Time_Spent cell as the parser of data_analysis.py classifies it:
a non-string value (replace raises AttributeError), a string json.loads
rejects (JSONDecodeError), or a string parsing to a key → number dict. -/
inductive TimeSpentCell where
  | nonString
  | badJson
  | parsed (entries : List (String × ℚ))
  deriving DecidableEq

/-- parse_time_spent of data_analysis.py: the sum of the dict values on a
successful parse, NaN (`none`) when either exception is caught. -/
def parse_time_spent : TimeSpentCell → Option ℚ
  | .nonString => none
  | .badJson => none
  | .parsed entries => some ((entries.map Prod.snd).sum)

/-- The key list of the dict run_t_test returns, in source-literal order. -/
def tTestKeys : TTestOutcome → List String
  | .err _ => ["metric", "test", "error"]
  | .ok _ => ["metric", "test", "group_a_mean", "group_b_mean", "difference",
      "percent_change", "t_statistic", "p_value", "effect_size", "significant",
      "sample_size_a", "sample_size_b"]

/-- The key list of the dict run_mann_whitney_test returns, in
source-literal order. -/
def mwKeys : MWOutcome → List String
  | .err _ => ["metric", "test", "error"]
  | .ok _ => ["metric", "test", "group_a_median", "group_b_median", "difference",
      "percent_change", "u_statistic", "p_value", "significant",
      "sample_size_a", "sample_size_b"]

/-- The metric field every outcome carries. -/
def TTestOutcome.metricName : TTestOutcome → String
  | .err e => e.metric
  | .ok r => r.metric

/-- The metric field every outcome carries. -/
def MWOutcome.metricName : MWOutcome → String
  | .err e => e.metric
  | .ok r => r.metric

/-- Relabel every row of cohort A as B and conversely. -/
def swapGroups (rows : List Row) : List Row :=
  rows.map (fun r =>
    { r with group := if r.group = "A" then "B" else if r.group = "B" then "A" else r.group })

/-! ### Basic lemmas on the embedded operations -/

theorem run_t_test_eq_ok (rows : List Row) (metric : String) (alpha : ℚ)
    (h2a : 2 ≤ (groupVals rows "A" metric).length)
    (h2b : 2 ≤ (groupVals rows "B" metric).length) :
    run_t_test rows metric alpha =
      .ok (tOkResult (groupVals rows "A" metric) (groupVals rows "B" metric) metric alpha) := by
  unfold run_t_test
  rw [if_neg]
  omega

theorem run_t_test_eq_err (rows : List Row) (metric : String) (alpha : ℚ)
    (h : (groupVals rows "A" metric).length < 2 ∨ (groupVals rows "B" metric).length < 2) :
    run_t_test rows metric alpha =
      .err { metric := metric, test := "t-test", error := "Insufficient data for t-test" } := by
  unfold run_t_test
  rw [if_pos h]

theorem run_mw_eq_ok (rows : List Row) (metric : String) (alpha : ℚ)
    (h1a : 1 ≤ (groupVals rows "A" metric).length)
    (h1b : 1 ≤ (groupVals rows "B" metric).length) :
    run_mann_whitney_test rows metric alpha =
      .ok (mwOkResult (groupVals rows "A" metric) (groupVals rows "B" metric) metric alpha) := by
  unfold run_mann_whitney_test
  rw [if_neg]
  omega

theorem run_mw_eq_err (rows : List Row) (metric : String) (alpha : ℚ)
    (h : (groupVals rows "A" metric).length < 1 ∨ (groupVals rows "B" metric).length < 1) :
    run_mann_whitney_test rows metric alpha =
      .err { metric := metric, test := "mann-whitney",
             error := "Insufficient data for Mann-Whitney test" } := by
  unfold run_mann_whitney_test
  rw [if_pos h]

theorem groupVals_cons_missing (rows : List Row) (r : Row) (g metric : String)
    (h : r.values metric = none) :
    groupVals (r :: rows) g metric = groupVals rows g metric := by
  by_cases hg : r.group = g <;>
    simp [groupVals, List.filter_cons, hg, List.filterMap_cons, h]

theorem groupVals_cons_value (rows : List Row) (r : Row) (g metric : String) (v : ℚ)
    (hg : r.group = g) (h : r.values metric = some v) :
    groupVals (r :: rows) g metric = v :: groupVals rows g metric := by
  simp [groupVals, List.filter_cons, hg, List.filterMap_cons, h]

theorem sampleVar_nonneg (l : List ℚ) (h2 : 2 ≤ l.length) : 0 ≤ sampleVar l := by
  unfold sampleVar
  apply div_nonneg
  · apply List.sum_nonneg
    intro x hx
    obtain ⟨y, _, rfl⟩ := List.mem_map.mp hx
    positivity
  · have : (2 : ℚ) ≤ (l.length : ℚ) := by exact_mod_cast h2
    linarith

theorem metricName_run_t_test (rows : List Row) (metric : String) (alpha : ℚ) :
    (run_t_test rows metric alpha).metricName = metric := by
  simp only [run_t_test]
  split <;> rfl

theorem metricName_run_mw (rows : List Row) (metric : String) (alpha : ℚ) :
    (run_mann_whitney_test rows metric alpha).metricName = metric := by
  simp only [run_mann_whitney_test]
  split <;> rfl

theorem groupVals_swap_A (rows : List Row) (metric : String) :
    groupVals (swapGroups rows) "A" metric = groupVals rows "B" metric := by
  induction rows with
  | nil => rfl
  | cons r rows ih =>
    rcases hv : r.values metric with _ | v <;>
      by_cases hA : r.group = "A" <;>
      by_cases hB : r.group = "B" <;>
      simp_all [groupVals, swapGroups, List.filter_cons, List.filterMap_cons]

theorem groupVals_swap_B (rows : List Row) (metric : String) :
    groupVals (swapGroups rows) "B" metric = groupVals rows "A" metric := by
  induction rows with
  | nil => rfl
  | cons r rows ih =>
    rcases hv : r.values metric with _ | v <;>
      by_cases hA : r.group = "A" <;>
      by_cases hB : r.group = "B" <;>
      simp_all [groupVals, swapGroups, List.filter_cons, List.filterMap_cons]

theorem pooled_std_comm (a b : List ℚ) : pooled_std a b = pooled_std b a := by
  unfold pooled_std
  congr 1
  ring

theorem effect_size_comm (a b : List ℚ) : effect_size a b = effect_size b a := by
  unfold effect_size
  rw [pooled_std_comm, abs_sub_comm]

/-! ### The Student t tail: value at 0 and closed form at 2 degrees of
freedom -/

theorem studentCDF_zero (ν : ℝ) : studentCDF ν 0 = 1 / 2 := by
  simp [studentCDF]

theorem tTwoSidedP_zero (ν : ℝ) : tTwoSidedP ν 0 = 1 := by
  simp [tTwoSidedP, studentCDF_zero]
  norm_num

theorem studentPdf_two (x : ℝ) :
    studentPdf 2 x = ((2 + x ^ 2) * Real.sqrt (2 + x ^ 2))⁻¹ := by
  have hsx : (0:ℝ) < 2 + x ^ 2 := by positivity
  have hs2 : Real.sqrt (2 + x ^ 2) ^ 2 = 2 + x ^ 2 := Real.sq_sqrt hsx.le
  have hu2 : Real.sqrt 2 ^ 2 = 2 := Real.sq_sqrt (by norm_num)
  have hs0 : (0:ℝ) < Real.sqrt (2 + x ^ 2) := Real.sqrt_pos.mpr hsx
  have hu0 : (0:ℝ) < Real.sqrt 2 := Real.sqrt_pos.mpr (by norm_num)
  have hp0 : (0:ℝ) < Real.sqrt Real.pi := Real.sqrt_pos.mpr Real.pi_pos
  have hG32 : Real.Gamma (((2:ℝ) + 1) / 2) = Real.sqrt Real.pi / 2 := by
    rw [show ((2:ℝ) + 1) / 2 = 1 / 2 + 1 by norm_num,
        Real.Gamma_add_one (by norm_num), Real.Gamma_one_half_eq]
    ring
  have hG1 : Real.Gamma ((2:ℝ) / 2) = 1 := by
    rw [show ((2:ℝ) / 2) = 1 by norm_num, Real.Gamma_one]
  have hsqrt2pi : Real.sqrt (2 * Real.pi) = Real.sqrt 2 * Real.sqrt Real.pi :=
    Real.sqrt_mul (by norm_num) _
  have hbase : (1 + x ^ 2 / 2 : ℝ) =
      (Real.sqrt (2 + x ^ 2) / Real.sqrt 2) ^ 2 := by
    rw [div_pow, hs2, hu2]
    ring
  have hc0 : (0:ℝ) ≤ Real.sqrt (2 + x ^ 2) / Real.sqrt 2 := by positivity
  have hrpow : (1 + x ^ 2 / 2 : ℝ) ^ (-(((2:ℝ) + 1) / 2)) =
      ((Real.sqrt (2 + x ^ 2) / Real.sqrt 2) ^ 3)⁻¹ := by
    have step : (1 + x ^ 2 / 2 : ℝ) ^ (-(((2:ℝ) + 1) / 2)) =
        (Real.sqrt (2 + x ^ 2) / Real.sqrt 2) ^ (((-3 : ℤ) : ℝ)) := by
      rw [hbase, ← Real.rpow_natCast (Real.sqrt (2 + x ^ 2) / Real.sqrt 2) 2,
          ← Real.rpow_mul hc0]
      congr 1
      push_cast
      ring
    rw [step, Real.rpow_intCast, zpow_neg]
    norm_num
    rfl
  have hs3 : Real.sqrt (2 + x ^ 2) ^ 3 = (2 + x ^ 2) * Real.sqrt (2 + x ^ 2) := by
    have h : Real.sqrt (2 + x ^ 2) ^ 3 =
        Real.sqrt (2 + x ^ 2) ^ 2 * Real.sqrt (2 + x ^ 2) := by ring
    rw [h, hs2]
  have hu3 : Real.sqrt 2 ^ 3 = 2 * Real.sqrt 2 := by
    have h : Real.sqrt 2 ^ 3 = Real.sqrt 2 ^ 2 * Real.sqrt 2 := by ring
    rw [h, hu2]
  have hdne : ((2:ℝ) + x ^ 2) ≠ 0 := ne_of_gt hsx
  have hsne : Real.sqrt (2 + x ^ 2) ≠ 0 := ne_of_gt hs0
  have hune : Real.sqrt 2 ≠ 0 := ne_of_gt hu0
  have hpne : Real.sqrt Real.pi ≠ 0 := ne_of_gt hp0
  unfold studentPdf
  rw [hG32, hG1, hsqrt2pi, hrpow, div_pow, hs3, hu3, mul_one]
  field_simp
  ring

theorem hasDerivAt_tcdf_two (x : ℝ) :
    HasDerivAt (fun y : ℝ => y / (2 * Real.sqrt (2 + y ^ 2)))
      (((2 + x ^ 2) * Real.sqrt (2 + x ^ 2))⁻¹) x := by
  have hpos : (0:ℝ) < 2 + x ^ 2 := by positivity
  have hs0 : (0:ℝ) < Real.sqrt (2 + x ^ 2) := Real.sqrt_pos.mpr hpos
  have hsq : Real.sqrt (2 + x ^ 2) ^ 2 = 2 + x ^ 2 := Real.sq_sqrt hpos.le
  have h1 : HasDerivAt (fun y : ℝ => 2 + y ^ 2) (2 * x) x := by
    simpa using (hasDerivAt_pow 2 x).const_add (2:ℝ)
  have h2 : HasDerivAt (fun y : ℝ => Real.sqrt (2 + y ^ 2))
      ((2 * x) / (2 * Real.sqrt (2 + x ^ 2))) x :=
    h1.sqrt (ne_of_gt hpos)
  have h3 : HasDerivAt (fun y : ℝ => 2 * Real.sqrt (2 + y ^ 2))
      (2 * ((2 * x) / (2 * Real.sqrt (2 + x ^ 2)))) x := h2.const_mul 2
  have h4 := (hasDerivAt_id x).div h3 (by positivity)
  convert h4 using 1
  have hsne : Real.sqrt (2 + x ^ 2) ≠ 0 := ne_of_gt hs0
  have hdne : ((2:ℝ) + x ^ 2) ≠ 0 := ne_of_gt hpos
  field_simp
  linear_combination (-(4 * x ^ 2 * Real.sqrt (2 + x ^ 2))) * hsq

theorem integral_studentPdf_two (T : ℝ) :
    ∫ x in (0:ℝ)..T, studentPdf 2 x = T / (2 * Real.sqrt (2 + T ^ 2)) := by
  have hcont : Continuous (fun x : ℝ => ((2 + x ^ 2) * Real.sqrt (2 + x ^ 2))⁻¹) := by
    apply Continuous.inv₀
    · exact (continuous_const.add (continuous_pow 2)).mul
        (Real.continuous_sqrt.comp (continuous_const.add (continuous_pow 2)))
    · intro x
      positivity
  have heq : ∫ x in (0:ℝ)..T, studentPdf 2 x
      = ∫ x in (0:ℝ)..T, ((2 + x ^ 2) * Real.sqrt (2 + x ^ 2))⁻¹ := by
    simp only [studentPdf_two]
  rw [heq,
    intervalIntegral.integral_eq_sub_of_hasDerivAt
      (fun y _ => hasDerivAt_tcdf_two y) (hcont.intervalIntegrable 0 T)]
  norm_num

theorem tTwoSidedP_two (t : ℝ) :
    tTwoSidedP 2 t = 1 - |t| / Real.sqrt (2 + t ^ 2) := by
  unfold tTwoSidedP studentCDF
  rw [integral_studentPdf_two, sq_abs]
  have hs0 : (0:ℝ) < Real.sqrt (2 + t ^ 2) := Real.sqrt_pos.mpr (by positivity)
  field_simp
  ring

/-! ### The 4-row end-to-end dataset of the spec -/

/-- The end-to-end scenario of the spec: group A carries 10 and 12,
group B carries 20 and 22, on a single metric m. -/
def endToEndRows : List Row :=
  [⟨"A", fun _ => some 10⟩, ⟨"A", fun _ => some 12⟩,
   ⟨"B", fun _ => some 20⟩, ⟨"B", fun _ => some 22⟩]

theorem mean_endToEndA : mean [(10:ℚ), 12] = 11 := by norm_num [mean]

theorem mean_endToEndB : mean [(20:ℚ), 22] = 21 := by norm_num [mean]

theorem sampleVar_endToEndA : sampleVar [(10:ℚ), 12] = 2 := by
  norm_num [sampleVar, mean]

theorem sampleVar_endToEndB : sampleVar [(20:ℚ), 22] = 2 := by
  norm_num [sampleVar, mean]

theorem welchSe2_endToEnd : welchSe2 [(10:ℚ), 12] [(20:ℚ), 22] = 2 := by
  unfold welchSe2
  rw [sampleVar_endToEndA, sampleVar_endToEndB]
  norm_num

theorem welchDf_endToEnd : welchDf [(10:ℚ), 12] [(20:ℚ), 22] = 2 := by
  unfold welchDf
  rw [sampleVar_endToEndA, sampleVar_endToEndB]
  norm_num

theorem tPVal_endToEnd :
    tPVal [(10:ℚ), 12] [(20:ℚ), 22] =
      some (1 - (10 / Real.sqrt 2) / Real.sqrt 52) := by
  unfold tPVal
  rw [welchSe2_endToEnd, welchDf_endToEnd, mean_endToEndA, mean_endToEndB,
    if_neg (by norm_num)]
  have harg : (((11 - 21 : ℚ) : ℝ)) / Real.sqrt (((2:ℚ) : ℝ)) = (-10) / Real.sqrt 2 := by
    norm_num
  rw [harg, show (((2:ℚ) : ℝ)) = (2:ℝ) by norm_num, tTwoSidedP_two]
  have habs : |(-10 : ℝ) / Real.sqrt 2| = 10 / Real.sqrt 2 := by
    rw [abs_div, abs_of_nonneg (Real.sqrt_nonneg 2)]
    norm_num
  have hsq : ((-10 : ℝ) / Real.sqrt 2) ^ 2 = 50 := by
    rw [div_pow, Real.sq_sqrt (by norm_num : (0:ℝ) ≤ 2)]
    norm_num
  rw [habs, hsq]
  norm_num

theorem tPVal_endToEnd_lt : (1 : ℝ) - (10 / Real.sqrt 2) / Real.sqrt 52 < 1 / 20 := by
  have hmul : Real.sqrt 2 * Real.sqrt 52 = Real.sqrt 104 := by
    rw [← Real.sqrt_mul (by norm_num : (0:ℝ) ≤ 2)]
    norm_num
  have h104pos : (0:ℝ) < Real.sqrt 104 := Real.sqrt_pos.mpr (by norm_num)
  have h104 : Real.sqrt 104 < 200 / 19 := by
    rw [show (104:ℝ) = 104 by norm_num]
    exact (Real.sqrt_lt' (by norm_num)).mpr (by norm_num)
  have hdiv : (10 : ℝ) / Real.sqrt 2 / Real.sqrt 52 = 10 / Real.sqrt 104 := by
    rw [div_div, hmul]
  have hgt : (19 : ℝ) / 20 < 10 / Real.sqrt 104 := by
    rw [lt_div_iff₀ h104pos]
    nlinarith [h104, h104pos]
  rw [hdiv]
  linarith

theorem mwExactP_endToEnd : mwExactP [(10:ℚ), 12] [(20:ℚ), 22] = 1 / 3 := by
  norm_num [mwExactP, splits, uStat]

theorem median_endToEndA : median [(10:ℚ), 12] = 11 := by
  norm_num [median, sortQ, insortQ]

theorem median_endToEndB : median [(20:ℚ), 22] = 21 := by
  norm_num [median, sortQ, insortQ]

/-! ### Claim theorems: error handling and the derived metric -/

/-- Claim C3: whenever either group has fewer than 2 non-missing values
for a metric, run_t_test returns the insufficient-data error dict and
nothing else; run_mann_whitney_test needs only 1 value per group, so with
exactly one observation in group A (and a nonempty group B) the t-test
result carries the error marker while the rank test still returns a full
result. -/
theorem C3_insufficient_data (rows : List Row) (metric : String) (alpha : ℚ) :
    ((groupVals rows "A" metric).length < 2 ∨ (groupVals rows "B" metric).length < 2 →
      run_t_test rows metric alpha =
        .err { metric := metric, test := "t-test", error := "Insufficient data for t-test" }) ∧
    (1 ≤ (groupVals rows "A" metric).length → 1 ≤ (groupVals rows "B" metric).length →
      ∃ r, run_mann_whitney_test rows metric alpha = .ok r) ∧
    ((groupVals rows "A" metric).length = 1 → 1 ≤ (groupVals rows "B" metric).length →
      run_t_test rows metric alpha =
        .err { metric := metric, test := "t-test", error := "Insufficient data for t-test" } ∧
      ∃ r, run_mann_whitney_test rows metric alpha = .ok r) := by
  refine ⟨fun h => run_t_test_eq_err rows metric alpha h, ?_, ?_⟩
  · intro h1a h1b
    exact ⟨_, run_mw_eq_ok rows metric alpha h1a h1b⟩
  · intro h1 h1b
    refine ⟨run_t_test_eq_err rows metric alpha (Or.inl (by omega)), ?_⟩
    exact ⟨_, run_mw_eq_ok rows metric alpha (by omega) h1b⟩

/-- Concrete instance of C3: group A has the single value 7, group B has
1 and 2; the t-test errors out and the Mann-Whitney test succeeds. -/
theorem C3_insufficient_data_witness :
    run_t_test
        [⟨"A", fun s => if s = "m" then some 7 else none⟩,
         ⟨"B", fun s => if s = "m" then some 1 else none⟩,
         ⟨"B", fun s => if s = "m" then some 2 else none⟩] "m" (1/20) =
      .err { metric := "m", test := "t-test", error := "Insufficient data for t-test" } ∧
    ∃ r, run_mann_whitney_test
        [⟨"A", fun s => if s = "m" then some 7 else none⟩,
         ⟨"B", fun s => if s = "m" then some 1 else none⟩,
         ⟨"B", fun s => if s = "m" then some 2 else none⟩] "m" (1/20) = .ok r :=
  (C3_insufficient_data
      [⟨"A", fun s => if s = "m" then some 7 else none⟩,
       ⟨"B", fun s => if s = "m" then some 1 else none⟩,
       ⟨"B", fun s => if s = "m" then some 2 else none⟩] "m" (1/20)).2.2
    (by decide) (by decide)

/-- Claim C8: the derived total-time metric is the sum of the values of
the parsed time-breakdown structure; a missing (non-string) or unparsable
structure yields a missing value, and the group partition of both test
runners drops missing values instead of counting them as zero. -/
theorem C8_total_time (entries : List (String × ℚ)) (rows : List Row) (r : Row)
    (g metric : String) (v : ℚ) :
    parse_time_spent (.parsed entries) = some ((entries.map Prod.snd).sum) ∧
    parse_time_spent .nonString = none ∧
    parse_time_spent .badJson = none ∧
    (r.values metric = none → groupVals (r :: rows) g metric = groupVals rows g metric) ∧
    (r.group = g → r.values metric = some v →
      groupVals (r :: rows) g metric = v :: groupVals rows g metric) :=
  ⟨rfl, rfl, rfl, groupVals_cons_missing rows r g metric,
    fun hg hv => groupVals_cons_value rows r g metric v hg hv⟩

/-- Concrete instance of C8: a breakdown of 30 and 12 totals 42, and a
row with a missing total is dropped from its group rather than kept. -/
theorem C8_total_time_witness :
    parse_time_spent (.parsed [("data_upload", 30), ("data_cleaning", 12)]) = some 42 ∧
    groupVals [⟨"A", fun _ => none⟩, ⟨"A", fun _ => some 5⟩] "A" "Total_Time_Spent" =
      groupVals [⟨"A", fun _ => some 5⟩] "A" "Total_Time_Spent" := by
  have h := C8_total_time [("data_upload", 30), ("data_cleaning", 12)]
    [⟨"A", fun _ => some 5⟩] ⟨"A", fun _ => none⟩ "A" "Total_Time_Spent" 0
  exact ⟨by rw [h.1]; norm_num, h.2.2.2.1 rfl⟩

/-- Claim C10: a time-breakdown string that parses to an empty structure
yields total 0, not a missing value; only a failed parse or a non-string
cell yields a missing value; and a 0-valued row stays in its group list
as a zero observation instead of being dropped. -/
theorem C10_empty_breakdown (rows : List Row) (r : Row) (g metric : String) :
    parse_time_spent (.parsed []) = some 0 ∧
    (∀ c, parse_time_spent c = none ↔ (c = .nonString ∨ c = .badJson)) ∧
    (r.group = g → r.values metric = some 0 →
      groupVals (r :: rows) g metric = 0 :: groupVals rows g metric) := by
  refine ⟨rfl, fun c => ?_, fun hg hv => groupVals_cons_value rows r g metric 0 hg hv⟩
  cases c <;> simp [parse_time_spent]

/-- Concrete instance of C10: an empty breakdown gives the zero total and
the zero row is kept in the group list. -/
theorem C10_empty_breakdown_witness :
    parse_time_spent (.parsed []) = some 0 ∧
    groupVals [⟨"A", fun _ => some 0⟩, ⟨"A", fun _ => some 5⟩] "A" "Total_Time_Spent" =
      0 :: groupVals [⟨"A", fun _ => some 5⟩] "A" "Total_Time_Spent" := by
  have h := C10_empty_breakdown [⟨"A", fun _ => some 5⟩] ⟨"A", fun _ => some 0⟩
    "A" "Total_Time_Spent"
  exact ⟨h.1, h.2.2 rfl rfl⟩

/-- Claim C4: in a successful result, percent_change is undefined exactly
when the reference central tendency (group A mean for the t-test, group A
median for the rank test) is zero, and otherwise equals
(B - A) / A * 100; the division is guarded, so the zero case produces the
explicit undefined value `none` rather than an exception or an infinity. -/
theorem C4_percent_change (rows : List Row) (metric : String) (alpha : ℚ) :
    (2 ≤ (groupVals rows "A" metric).length → 2 ≤ (groupVals rows "B" metric).length →
      ∃ r, run_t_test rows metric alpha = .ok r ∧
        (r.percent_change = none ↔ r.group_a_mean = 0) ∧
        (r.group_a_mean ≠ 0 →
          r.percent_change = some ((r.group_b_mean - r.group_a_mean) / r.group_a_mean * 100))) ∧
    (1 ≤ (groupVals rows "A" metric).length → 1 ≤ (groupVals rows "B" metric).length →
      ∃ r, run_mann_whitney_test rows metric alpha = .ok r ∧
        (r.percent_change = none ↔ r.group_a_median = 0) ∧
        (r.group_a_median ≠ 0 →
          r.percent_change = some
            ((r.group_b_median - r.group_a_median) / r.group_a_median * 100))) := by
  constructor
  · intro h2a h2b
    refine ⟨_, run_t_test_eq_ok rows metric alpha h2a h2b, ?_⟩
    by_cases h0 : mean (groupVals rows "A" metric) = 0 <;>
      exact ⟨by simp [tOkResult, h0], by simp [tOkResult, h0]⟩
  · intro h1a h1b
    refine ⟨_, run_mw_eq_ok rows metric alpha h1a h1b, ?_⟩
    by_cases h0 : median (groupVals rows "A" metric) = 0 <;>
      exact ⟨by simp [mwOkResult, h0], by simp [mwOkResult, h0]⟩

/-- Concrete instance of C4: with group A averaging zero the t-test
percent change is the undefined value, and on the 4-row end-to-end data
the rank-test percent change is (21 - 11) / 11 * 100. -/
theorem C4_percent_change_witness :
    (∃ r, run_t_test
        [⟨"A", fun _ => some (-1)⟩, ⟨"A", fun _ => some 1⟩,
         ⟨"B", fun _ => some 3⟩, ⟨"B", fun _ => some 5⟩] "m" (1/20) = .ok r ∧
      r.percent_change = none) ∧
    (∃ r, run_mann_whitney_test
        [⟨"A", fun _ => some 10⟩, ⟨"A", fun _ => some 12⟩,
         ⟨"B", fun _ => some 20⟩, ⟨"B", fun _ => some 22⟩] "m" (1/20) = .ok r ∧
      r.percent_change = some ((21 - 11) / 11 * 100)) := by
  constructor
  · obtain ⟨r, hr, hiff, -⟩ :=
      (C4_percent_change
        [⟨"A", fun _ => some (-1)⟩, ⟨"A", fun _ => some 1⟩,
         ⟨"B", fun _ => some 3⟩, ⟨"B", fun _ => some 5⟩] "m" (1/20)).1
        (by decide) (by decide)
    refine ⟨r, hr, hiff.mpr ?_⟩
    have : r.group_a_mean = mean [(-1 : ℚ), 1] := by
      rw [run_t_test_eq_ok _ _ _ (by decide) (by decide)] at hr
      cases hr
      congr 1
    rw [this]
    norm_num [mean]
  · obtain ⟨r, hr, -, hval⟩ :=
      (C4_percent_change
        [⟨"A", fun _ => some 10⟩, ⟨"A", fun _ => some 12⟩,
         ⟨"B", fun _ => some 20⟩, ⟨"B", fun _ => some 22⟩] "m" (1/20)).2
        (by decide) (by decide)
    have ha : r.group_a_median = 11 := by
      rw [run_mw_eq_ok _ _ _ (by decide) (by decide)] at hr
      cases hr
      have : groupVals
          [⟨"A", fun _ => some 10⟩, ⟨"A", fun _ => some 12⟩,
           ⟨"B", fun _ => some 20⟩, ⟨"B", fun _ => some 22⟩] "A" "m" = [10, 12] := by decide
      simp [mwOkResult, this]
      norm_num [median, sortQ, insortQ]
    have hb : r.group_b_median = 21 := by
      rw [run_mw_eq_ok _ _ _ (by decide) (by decide)] at hr
      cases hr
      have : groupVals
          [⟨"A", fun _ => some 10⟩, ⟨"A", fun _ => some 12⟩,
           ⟨"B", fun _ => some 20⟩, ⟨"B", fun _ => some 22⟩] "B" "m" = [20, 22] := by decide
      simp [mwOkResult, this]
      norm_num [median, sortQ, insortQ]
    refine ⟨r, hr, ?_⟩
    rw [hval (by rw [ha]; norm_num), ha, hb]

/-- Claim C9: a result dict carries the key error exactly when the
sample-size check of its test failed; an error dict has exactly the keys
metric, test and error (in particular no significant key), and a success
dict never has the key error. -/
theorem C9_error_key (rows : List Row) (metric : String) (alpha : ℚ) :
    (("error" ∈ tTestKeys (run_t_test rows metric alpha)) ↔
      ((groupVals rows "A" metric).length < 2 ∨ (groupVals rows "B" metric).length < 2)) ∧
    (∀ e, run_t_test rows metric alpha = .err e →
      tTestKeys (.err e) = ["metric", "test", "error"] ∧
      "significant" ∉ tTestKeys (TTestOutcome.err e)) ∧
    (∀ r, run_t_test rows metric alpha = .ok r → "error" ∉ tTestKeys (.ok r)) ∧
    (("error" ∈ mwKeys (run_mann_whitney_test rows metric alpha)) ↔
      ((groupVals rows "A" metric).length < 1 ∨ (groupVals rows "B" metric).length < 1)) ∧
    (∀ e, run_mann_whitney_test rows metric alpha = .err e →
      mwKeys (.err e) = ["metric", "test", "error"] ∧
      "significant" ∉ mwKeys (MWOutcome.err e)) ∧
    (∀ r, run_mann_whitney_test rows metric alpha = .ok r → "error" ∉ mwKeys (.ok r)) := by
  refine ⟨?_, fun e _ => ⟨rfl, by simp [tTestKeys]⟩, fun r _ => by simp [tTestKeys], ?_,
    fun e _ => ⟨rfl, by simp [mwKeys]⟩, fun r _ => by simp [mwKeys]⟩
  · by_cases h : (groupVals rows "A" metric).length < 2 ∨ (groupVals rows "B" metric).length < 2
    · rw [run_t_test_eq_err rows metric alpha h]
      simpa [tTestKeys] using h
    · push_neg at h
      rw [run_t_test_eq_ok rows metric alpha h.1 h.2]
      constructor
      · intro hmem
        exact absurd hmem (by simp [tTestKeys])
      · intro hcond
        omega
  · by_cases h : (groupVals rows "A" metric).length < 1 ∨ (groupVals rows "B" metric).length < 1
    · rw [run_mw_eq_err rows metric alpha h]
      simpa [mwKeys] using h
    · push_neg at h
      rw [run_mw_eq_ok rows metric alpha h.1 h.2]
      constructor
      · intro hmem
        exact absurd hmem (by simp [mwKeys])
      · intro hcond
        omega

/-- Concrete instance of C9: with one observation in group A the t-test
dict carries the key error while the Mann-Whitney dict does not. -/
theorem C9_error_key_witness :
    ("error" ∈ tTestKeys (run_t_test
        [⟨"A", fun _ => some 7⟩, ⟨"B", fun _ => some 1⟩, ⟨"B", fun _ => some 2⟩]
        "m" (1/20))) ∧
    ¬ ("error" ∈ mwKeys (run_mann_whitney_test
        [⟨"A", fun _ => some 7⟩, ⟨"B", fun _ => some 1⟩, ⟨"B", fun _ => some 2⟩]
        "m" (1/20))) := by
  have h := C9_error_key
    [⟨"A", fun _ => some 7⟩, ⟨"B", fun _ => some 1⟩, ⟨"B", fun _ => some 2⟩] "m" (1/20)
  exact ⟨h.1.mpr (by decide), fun hmem => absurd (h.2.2.2.1.mp hmem) (by decide)⟩

/-! ### Claim theorems: effect size, symmetry and the aggregator -/

/-- The pooled standard deviation exactly as the spec words it: the
square root of the (n-1)-weighted combination of the two sample variances
divided by (n_a + n_b - 2). -/
noncomputable def pooledStdSpec (a b : List ℚ) : ℝ :=
  Real.sqrt ((((a.length : ℝ) - 1) * ((sampleVar a : ℚ) : ℝ) +
              ((b.length : ℝ) - 1) * ((sampleVar b : ℚ) : ℝ)) /
             ((a.length : ℝ) + (b.length : ℝ) - 2))

/-- Cohen's d exactly as the spec words it: |mean_B - mean_A| divided by
the pooled standard deviation, defined as 0 when that deviation is 0. -/
noncomputable def cohensDSpec (a b : List ℚ) : ℝ :=
  if pooledStdSpec a b = 0 then 0
  else |((mean b : ℚ) : ℝ) - ((mean a : ℚ) : ℝ)| / pooledStdSpec a b

theorem pooled_std_eq_spec (a b : List ℚ) (h2a : 2 ≤ a.length) (h2b : 2 ≤ b.length) :
    pooled_std a b = pooledStdSpec a b := by
  unfold pooled_std pooledStdSpec std
  rw [Real.sq_sqrt, Real.sq_sqrt]
  · exact_mod_cast sampleVar_nonneg b h2b
  · exact_mod_cast sampleVar_nonneg a h2a

/-- Claim C5: on the success path run_t_test computes the pooled standard
deviation as the square root of the (n-1)-weighted combination of the
sample variances over (n_a + n_b - 2), and its effect size is
|mean_B - mean_A| / pooled_std, with 0 substituted when pooled_std is 0. -/
theorem C5_effect_size (rows : List Row) (metric : String) (alpha : ℚ)
    (h2a : 2 ≤ (groupVals rows "A" metric).length)
    (h2b : 2 ≤ (groupVals rows "B" metric).length) :
    ∃ r, run_t_test rows metric alpha = .ok r ∧
      pooled_std (groupVals rows "A" metric) (groupVals rows "B" metric) =
        pooledStdSpec (groupVals rows "A" metric) (groupVals rows "B" metric) ∧
      r.effect_size =
        cohensDSpec (groupVals rows "A" metric) (groupVals rows "B" metric) := by
  have hspec := pooled_std_eq_spec _ _ h2a h2b
  refine ⟨_, run_t_test_eq_ok rows metric alpha h2a h2b, hspec, ?_⟩
  show effect_size _ _ = _
  unfold effect_size cohensDSpec
  rw [hspec, abs_sub_comm]
  have hnn : (0:ℝ) ≤ pooledStdSpec (groupVals rows "A" metric) (groupVals rows "B" metric) :=
    Real.sqrt_nonneg _
  rcases lt_or_eq_of_le hnn with h | h
  · rw [if_pos h, if_neg (ne_of_gt h)]
  · rw [if_neg (by rw [← h]; exact lt_irrefl 0), if_pos h.symm]

/-- Concrete instance of C5: the effect size of the 4-row end-to-end data
satisfies the spec formula. -/
theorem C5_effect_size_witness :
    ∃ r, run_t_test
        [⟨"A", fun _ => some 10⟩, ⟨"A", fun _ => some 12⟩,
         ⟨"B", fun _ => some 20⟩, ⟨"B", fun _ => some 22⟩] "m" (1/20) = .ok r ∧
      r.effect_size =
        cohensDSpec
          (groupVals
            [⟨"A", fun _ => some 10⟩, ⟨"A", fun _ => some 12⟩,
             ⟨"B", fun _ => some 20⟩, ⟨"B", fun _ => some 22⟩] "A" "m")
          (groupVals
            [⟨"A", fun _ => some 10⟩, ⟨"A", fun _ => some 12⟩,
             ⟨"B", fun _ => some 20⟩, ⟨"B", fun _ => some 22⟩] "B" "m") := by
  obtain ⟨r, hr, -, hd⟩ := C5_effect_size
    [⟨"A", fun _ => some 10⟩, ⟨"A", fun _ => some 12⟩,
     ⟨"B", fun _ => some 20⟩, ⟨"B", fun _ => some 22⟩] "m" (1/20)
    (by decide) (by decide)
  exact ⟨r, hr, hd⟩

/-- Claim C6: relabelling the two cohorts flips the sign of the reported
difference and leaves the absolute effect size unchanged. -/
theorem C6_swap_symmetry (rows : List Row) (metric : String) (alpha : ℚ)
    (h2a : 2 ≤ (groupVals rows "A" metric).length)
    (h2b : 2 ≤ (groupVals rows "B" metric).length) :
    ∃ r rs, run_t_test rows metric alpha = .ok r ∧
      run_t_test (swapGroups rows) metric alpha = .ok rs ∧
      rs.difference = - r.difference ∧
      |rs.effect_size| = |r.effect_size| := by
  have h2a' : 2 ≤ (groupVals (swapGroups rows) "A" metric).length := by
    rw [groupVals_swap_A]; exact h2b
  have h2b' : 2 ≤ (groupVals (swapGroups rows) "B" metric).length := by
    rw [groupVals_swap_B]; exact h2a
  have hok := run_t_test_eq_ok rows metric alpha h2a h2b
  have hok' := run_t_test_eq_ok (swapGroups rows) metric alpha h2a' h2b'
  rw [groupVals_swap_A, groupVals_swap_B] at hok'
  refine ⟨_, _, hok, hok', ?_, ?_⟩
  · show mean _ - mean _ = - (mean _ - mean _)
    ring
  · show |effect_size _ _| = |effect_size _ _|
    rw [effect_size_comm]

/-- Concrete instance of C6: swapping the labels on the 4-row end-to-end
data flips the difference and keeps the absolute effect size. -/
theorem C6_swap_symmetry_witness :
    ∃ r rs, run_t_test
        [⟨"A", fun _ => some 10⟩, ⟨"A", fun _ => some 12⟩,
         ⟨"B", fun _ => some 20⟩, ⟨"B", fun _ => some 22⟩] "m" (1/20) = .ok r ∧
      run_t_test (swapGroups
        [⟨"A", fun _ => some 10⟩, ⟨"A", fun _ => some 12⟩,
         ⟨"B", fun _ => some 20⟩, ⟨"B", fun _ => some 22⟩]) "m" (1/20) = .ok rs ∧
      rs.difference = - r.difference ∧
      |rs.effect_size| = |r.effect_size| :=
  C6_swap_symmetry
    [⟨"A", fun _ => some 10⟩, ⟨"A", fun _ => some 12⟩,
     ⟨"B", fun _ => some 20⟩, ⟨"B", fun _ => some 22⟩] "m" (1/20)
    (by decide) (by decide)

/-- Claim C7: analyze_all_metrics produces two result lists with exactly
one entry per numeric column other than User_ID, in column order, the
i-th entries of both lists carrying the i-th metric name; this holds for
every row set, so an insufficient-data error entry for one metric never
suppresses the entries of the others. -/
theorem C7_aggregator (df : DataFrame) (alpha : ℚ) :
    (analyze_all_metrics df alpha).t_test_results.length =
      (df.numericCols.filter (fun c => c ≠ "User_ID")).length ∧
    (analyze_all_metrics df alpha).mann_whitney_results.length =
      (df.numericCols.filter (fun c => c ≠ "User_ID")).length ∧
    ∀ i : ℕ,
      ((analyze_all_metrics df alpha).t_test_results[i]?).map TTestOutcome.metricName =
        (df.numericCols.filter (fun c => c ≠ "User_ID"))[i]? ∧
      ((analyze_all_metrics df alpha).mann_whitney_results[i]?).map MWOutcome.metricName =
        (df.numericCols.filter (fun c => c ≠ "User_ID"))[i]? := by
  refine ⟨by simp [analyze_all_metrics], by simp [analyze_all_metrics], fun i => ⟨?_, ?_⟩⟩
  · rcases h : (df.numericCols.filter (fun c => c ≠ "User_ID"))[i]? with _ | m <;>
      simp only [ne_eq, decide_not] at h <;>
      simp [analyze_all_metrics, List.getElem?_map, h, metricName_run_t_test]
  · rcases h : (df.numericCols.filter (fun c => c ≠ "User_ID"))[i]? with _ | m <;>
      simp only [ne_eq, decide_not] at h <;>
      simp [analyze_all_metrics, List.getElem?_map, h, metricName_run_mw]

/-! ### Claim theorems: the end-to-end scenario and identical groups -/

/-- Claim C1, counterexample to its final conjunct: on the 4-row
end-to-end data the t-test is significant at 0.05 but the Mann-Whitney
test is not (its exact two-sided p-value is 1/3), so the rank test does
not show the same significance as the t-test there. -/
theorem C1_counterexample :
    ∃ rt rm, run_t_test endToEndRows "m" (1/20) = .ok rt ∧
      run_mann_whitney_test endToEndRows "m" (1/20) = .ok rm ∧
      rt.significant ∧ rm.significant = false := by
  have hA : groupVals endToEndRows "A" "m" = [10, 12] := by decide
  have hB : groupVals endToEndRows "B" "m" = [20, 22] := by decide
  have ht := run_t_test_eq_ok endToEndRows "m" (1/20) (by decide) (by decide)
  rw [hA, hB] at ht
  have hm := run_mw_eq_ok endToEndRows "m" (1/20) (by decide) (by decide)
  rw [hA, hB] at hm
  refine ⟨_, _, ht, hm, ?_, ?_⟩
  · exact ⟨1 - (10 / Real.sqrt 2) / Real.sqrt 52, tPVal_endToEnd, by
      rw [show (((1/20 : ℚ) : ℝ)) = 1/20 by norm_num]
      exact tPVal_endToEnd_lt⟩
  · show decide (mwExactP [10, 12] [20, 22] < 1/20) = false
    rw [mwExactP_endToEnd, decide_eq_false_iff_not]
    norm_num

/-- Claim C1 as amended: on the 4-row end-to-end data the t-test returns
mean_A 11, mean_B 21, difference 10, percent change 1000/11 (90.91 to two
decimals), a p-value below 0.05 and significant true; the Mann-Whitney
test returns medians 11 and 21 with its difference in the same positive
direction, but its exact p-value is 1/3, so it is not significant. -/
theorem C1_end_to_end :
    ∃ rt rm, run_t_test endToEndRows "m" (1/20) = .ok rt ∧
      run_mann_whitney_test endToEndRows "m" (1/20) = .ok rm ∧
      rt.group_a_mean = 11 ∧ rt.group_b_mean = 21 ∧ rt.difference = 10 ∧
      (∃ q, rt.percent_change = some q ∧ round (q * 100) = 9091) ∧
      (∃ p, rt.p_value = some p ∧ p < 1/20) ∧ rt.significant ∧
      rm.group_a_median = 11 ∧ rm.group_b_median = 21 ∧
      0 < rt.difference ∧ 0 < rm.difference ∧
      rm.p_value = 1/3 ∧ rm.significant = false := by
  have hA : groupVals endToEndRows "A" "m" = [10, 12] := by decide
  have hB : groupVals endToEndRows "B" "m" = [20, 22] := by decide
  have ht := run_t_test_eq_ok endToEndRows "m" (1/20) (by decide) (by decide)
  rw [hA, hB] at ht
  have hm := run_mw_eq_ok endToEndRows "m" (1/20) (by decide) (by decide)
  rw [hA, hB] at hm
  have hdiff : mean [(20:ℚ), 22] - mean [(10:ℚ), 12] = 10 := by
    rw [mean_endToEndA, mean_endToEndB]
    norm_num
  refine ⟨_, _, ht, hm, mean_endToEndA, mean_endToEndB, hdiff, ?_, ?_, ?_, ?_, ?_, ?_, ?_,
      mwExactP_endToEnd, ?_⟩
  · refine ⟨1000/11, ?_, by norm_num [round_eq]⟩
    show (if mean [(10:ℚ), 12] ≠ 0 then
        some ((mean [(20:ℚ), 22] - mean [(10:ℚ), 12]) / mean [(10:ℚ), 12] * 100)
      else none) = some (1000/11)
    rw [if_pos (by rw [mean_endToEndA]; norm_num), hdiff, mean_endToEndA]
    norm_num
  · exact ⟨1 - (10 / Real.sqrt 2) / Real.sqrt 52, tPVal_endToEnd, tPVal_endToEnd_lt⟩
  · exact ⟨1 - (10 / Real.sqrt 2) / Real.sqrt 52, tPVal_endToEnd, by
      rw [show (((1/20 : ℚ) : ℝ)) = 1/20 by norm_num]
      exact tPVal_endToEnd_lt⟩
  · exact median_endToEndA
  · exact median_endToEndB
  · rw [show (tOkResult [(10:ℚ), 12] [(20:ℚ), 22] "m" (1/20)).difference =
        mean [(20:ℚ), 22] - mean [(10:ℚ), 12] from rfl, hdiff]
    norm_num
  · show (0:ℚ) < median [(20:ℚ), 22] - median [(10:ℚ), 12]
    rw [median_endToEndA, median_endToEndB]
    norm_num
  · show decide (mwExactP [10, 12] [20, 22] < 1/20) = false
    rw [mwExactP_endToEnd, decide_eq_false_iff_not]
    norm_num

/-- Claim C2, counterexample: when the two groups carry identical values
that are moreover all equal (5, 5 against 5, 5), scipy divides 0 by 0, so
the t-statistic and the p-value are NaN rather than approximately 0 and
approximately 1; only the effect size 0 and significant false survive. -/
theorem C2_counterexample :
    ∃ r, run_t_test
        [⟨"A", fun _ => some 5⟩, ⟨"A", fun _ => some 5⟩,
         ⟨"B", fun _ => some 5⟩, ⟨"B", fun _ => some 5⟩] "m" (1/20) = .ok r ∧
      r.t_statistic = none ∧ r.p_value = none ∧
      ¬ r.significant ∧ r.effect_size = 0 := by
  have hA : groupVals
      [⟨"A", fun _ => some 5⟩, ⟨"A", fun _ => some 5⟩,
       ⟨"B", fun _ => some 5⟩, ⟨"B", fun _ => some 5⟩] "A" "m" = [5, 5] := by decide
  have hB : groupVals
      [⟨"A", fun _ => some 5⟩, ⟨"A", fun _ => some 5⟩,
       ⟨"B", fun _ => some 5⟩, ⟨"B", fun _ => some 5⟩] "B" "m" = [5, 5] := by decide
  have ht := run_t_test_eq_ok
    [⟨"A", fun _ => some 5⟩, ⟨"A", fun _ => some 5⟩,
     ⟨"B", fun _ => some 5⟩, ⟨"B", fun _ => some 5⟩] "m" (1/20) (by decide) (by decide)
  rw [hA, hB] at ht
  have hvar : sampleVar [(5:ℚ), 5] = 0 := by norm_num [sampleVar, mean]
  have hse2 : welchSe2 [(5:ℚ), 5] [(5:ℚ), 5] = 0 := by
    unfold welchSe2
    rw [hvar]
    norm_num
  have hstat : tStatistic [(5:ℚ), 5] [(5:ℚ), 5] = none := by
    unfold tStatistic
    rw [if_pos hse2]
  have hp : tPVal [(5:ℚ), 5] [(5:ℚ), 5] = none := by
    unfold tPVal
    rw [if_pos hse2, if_pos (by norm_num)]
  refine ⟨_, ht, hstat, hp, ?_, ?_⟩
  · rintro ⟨p, hsome, -⟩
    rw [hp] at hsome
    exact Option.noConfusion hsome
  · show effect_size [(5:ℚ), 5] [(5:ℚ), 5] = 0
    unfold effect_size pooled_std std
    rw [hvar]
    norm_num

/-- Claim C2 as amended: for a metric on which the two groups hold the
same multiset of at least 2 values that are not all equal, the t-test
reports t-statistic exactly 0, p-value exactly 1, effect size 0 and
significant false.  (When the common values are all equal the variances
vanish and scipy instead reports NaN for t and p, see the
counterexample.) -/
theorem C2_identical_groups (rows : List Row) (metric : String)
    (hperm : (groupVals rows "A" metric).Perm (groupVals rows "B" metric))
    (h2 : 2 ≤ (groupVals rows "A" metric).length)
    (hvar : sampleVar (groupVals rows "A" metric) ≠ 0) :
    ∃ r, run_t_test rows metric (1/20) = .ok r ∧
      r.t_statistic = some 0 ∧ r.p_value = some 1 ∧
      r.effect_size = 0 ∧ ¬ r.significant := by
  have hlen : (groupVals rows "A" metric).length = (groupVals rows "B" metric).length :=
    hperm.length_eq
  have h2b : 2 ≤ (groupVals rows "B" metric).length := hlen ▸ h2
  have hmean : mean (groupVals rows "A" metric) = mean (groupVals rows "B" metric) := by
    unfold mean
    rw [hperm.sum_eq, hlen]
  have hvarEq : sampleVar (groupVals rows "A" metric)
      = sampleVar (groupVals rows "B" metric) := by
    unfold sampleVar
    rw [hmean, hlen, (hperm.map (fun x => (x - mean (groupVals rows "B" metric)) ^ 2)).sum_eq]
  have hvarPos : 0 < sampleVar (groupVals rows "A" metric) :=
    lt_of_le_of_ne (sampleVar_nonneg _ h2) (Ne.symm hvar)
  have hlenA : (0:ℚ) < ((groupVals rows "A" metric).length : ℚ) := by
    exact_mod_cast show 0 < (groupVals rows "A" metric).length by omega
  have hlenB : (0:ℚ) < ((groupVals rows "B" metric).length : ℚ) := by
    exact_mod_cast show 0 < (groupVals rows "B" metric).length by omega
  have hse2 : 0 < welchSe2 (groupVals rows "A" metric) (groupVals rows "B" metric) := by
    unfold welchSe2
    have hb : 0 < sampleVar (groupVals rows "B" metric) := hvarEq ▸ hvarPos
    exact add_pos (div_pos hvarPos hlenA) (div_pos hb hlenB)
  have hse2ne : welchSe2 (groupVals rows "A" metric) (groupVals rows "B" metric) ≠ 0 :=
    ne_of_gt hse2
  have hdiff : mean (groupVals rows "A" metric) - mean (groupVals rows "B" metric) = 0 := by
    rw [hmean, sub_self]
  have hstat : tStatistic (groupVals rows "A" metric) (groupVals rows "B" metric)
      = some 0 := by
    unfold tStatistic
    rw [if_neg hse2ne, hdiff]
    norm_num
  have hp : tPVal (groupVals rows "A" metric) (groupVals rows "B" metric) = some 1 := by
    unfold tPVal
    rw [if_neg hse2ne, hdiff]
    norm_num [tTwoSidedP_zero]
  refine ⟨_, run_t_test_eq_ok rows metric (1/20) h2 h2b, hstat, hp, ?_, ?_⟩
  · show effect_size _ _ = 0
    unfold effect_size
    have hcast : ((mean (groupVals rows "A" metric) : ℚ) : ℝ)
        = ((mean (groupVals rows "B" metric) : ℚ) : ℝ) := by
      exact_mod_cast congrArg (fun q : ℚ => (q : ℝ)) hmean
    split_ifs
    · rw [hcast, sub_self, abs_zero, zero_div]
    · rfl
  · rintro ⟨p, hsome, hlt⟩
    rw [hp] at hsome
    cases hsome
    rw [show (((1/20 : ℚ) : ℝ)) = 1/20 by norm_num] at hlt
    norm_num at hlt

/-- Concrete instance of the amended C2: group A holds 1 and 2, group B
holds 2 and 1. -/
theorem C2_identical_groups_witness :
    ∃ r, run_t_test
        [⟨"A", fun _ => some 1⟩, ⟨"A", fun _ => some 2⟩,
         ⟨"B", fun _ => some 2⟩, ⟨"B", fun _ => some 1⟩] "m" (1/20) = .ok r ∧
      r.t_statistic = some 0 ∧ r.p_value = some 1 ∧
      r.effect_size = 0 ∧ ¬ r.significant := by
  apply C2_identical_groups
  · decide
  · decide
  · have h : groupVals
        [⟨"A", fun _ => some 1⟩, ⟨"A", fun _ => some 2⟩,
         ⟨"B", fun _ => some 2⟩, ⟨"B", fun _ => some 1⟩] "A" "m" = [1, 2] := by decide
    rw [h]
    norm_num [sampleVar, mean]

end ABTest
